import Mathlib

/-!
Verification of the Novablick agent orchestration engine against its
specification.

The development shallowly embeds the two security- and control-flow-relevant
parts of the repository:

* the Dataset Query Guard `validateSQLQuery` and the `queryDataset` tool's
  `execute` wrapper (`src/lib/ai/tools.ts`), modelling JavaScript string and
  regex operations over `List Char`;
* the orchestration engine `streamAgent` (planning decision, plan generation,
  step-execution loop, final synthesis), with the LLM calls abstracted as an
  oracle supplying the planning decision, the streamed plan steps, and each
  step's resulting messages.

Strings are treated as ASCII character lists; `toLowerCase`, `trim`, the
word-boundary regex test and the `dataset_id` extraction regex are modelled
character by character after the JavaScript semantics.
-/

namespace Novablick

/-! ## Character and string primitives (JavaScript semantics, ASCII) -/

/-- ASCII lowercasing of one character, as `String.prototype.toLowerCase`
acts on ASCII text. -/
def asciiLower (c : Char) : Char :=
  if 65 ≤ c.toNat ∧ c.toNat ≤ 90 then Char.ofNat (c.toNat + 32) else c

/-- ASCII uppercasing of one character, as `String.prototype.toUpperCase`
acts on ASCII text. -/
def asciiUpper (c : Char) : Char :=
  if 97 ≤ c.toNat ∧ c.toNat ≤ 122 then Char.ofNat (c.toNat - 32) else c

def lowerChars (s : List Char) : List Char := s.map asciiLower

def lowerStr (s : String) : String := String.mk (lowerChars s.data)

def upperStr (s : String) : String := String.mk (s.data.map asciiUpper)

/-- Whitespace removed by `String.prototype.trim` (ASCII part). -/
def isSpaceChar (c : Char) : Bool :=
  c == ' ' || c == '\t' || c == '\n' || c == '\r' ||
  c == Char.ofNat 11 || c == Char.ofNat 12

def trimChars (s : List Char) : List Char :=
  ((s.dropWhile isSpaceChar).reverse.dropWhile isSpaceChar).reverse

/-- `pat` occurs at the very start of `s`. -/
def beginsWith : List Char → List Char → Bool
  | [], _ => true
  | _ :: _, [] => false
  | p :: ps, c :: cs => p == c && beginsWith ps cs

/-- `pat` occurs somewhere in `s` (JavaScript `String.prototype.includes`). -/
def containsSub (pat s : List Char) : Bool :=
  (List.range (s.length + 1)).any (fun i => beginsWith pat (s.drop i))

/-- A regex word character `\w`, i.e. `[A-Za-z0-9_]`. -/
def isWordChar (c : Char) : Bool :=
  decide ((97 ≤ c.toNat ∧ c.toNat ≤ 122) ∨ (65 ≤ c.toNat ∧ c.toNat ≤ 90) ∨
    (48 ≤ c.toNat ∧ c.toNat ≤ 57) ∨ c.toNat = 95)

/-- Whether position `i` of `s` holds a word character (out of range counts
as no word character, as at the ends of a string). -/
def wordCharAt (s : List Char) (i : Nat) : Bool :=
  match (s.drop i).head? with
  | some c => isWordChar c
  | none => false

/-- The JavaScript regex test `/\b<kw>\b/i.test(q)`: some position of the
lowercased text carries the lowercased keyword with a word boundary on each
side. -/
def hasWholeWord (kw q : String) : Bool :=
  let s := lowerChars q.data
  let k := lowerChars kw.data
  (List.range (s.length + 1)).any (fun i =>
    beginsWith k (s.drop i) &&
    (i == 0 || !wordCharAt s (i - 1)) &&
    !wordCharAt s (i + k.length))

/-- Single-quote character, written by code point to keep source plain. -/
def sq : String := String.mk [Char.ofNat 39]

/-- Double-quote character. -/
def dq : String := String.mk [Char.ofNat 34]

/-! ## Dataset Query Guard (`validateSQLQuery`, src/lib/ai/tools.ts) -/

/-- The mutating keywords blocked by the guard, in source order. -/
def dangerousKeywords : List String :=
  ["insert", "update", "delete", "drop", "truncate", "alter", "create",
   "exec", "execute", "grant", "revoke"]

/-- The source's keyword loop: the first dangerous keyword whose
word-boundary regex matches the raw query, if any. -/
def findDangerousKeyword (query : String) : Option String :=
  dangerousKeywords.find? (fun kw => hasWholeWord kw query)

/-- `query.trim().toLowerCase()` of the source. -/
def normalizedQuery (query : String) : List Char :=
  lowerChars (trimChars query.data)

/-- `normalizedQuery.startsWith("select")`. -/
def startsWithSelectNorm (query : String) : Bool :=
  beginsWith ("select".data) (normalizedQuery query)

/-- `normalizedQuery.includes("dataset_rows")`. -/
def referencesDatasetRows (query : String) : Bool :=
  containsSub ("dataset_rows".data) (normalizedQuery query)

/-- A character the extraction regex's class `[a-f0-9-]` accepts (with the
`i` flag, so `A`–`F` as well). -/
def isIdChar (c : Char) : Bool :=
  decide ((97 ≤ c.toNat ∧ c.toNat ≤ 102) ∨ (65 ≤ c.toNat ∧ c.toNat ≤ 70) ∨
    (48 ≤ c.toNat ∧ c.toNat ≤ 57) ∨ c.toNat = 45)

/-- A quote character, `['"]` of the extraction regex. -/
def isQuoteChar (c : Char) : Bool :=
  c == Char.ofNat 39 || c == Char.ofNat 34

/-- JavaScript regex `\s` on ASCII text. -/
def isRegexSpace (c : Char) : Bool := isSpaceChar c

/-- Case-insensitive literal match of `p` (given lowercase) at the head of
`s`. -/
def ciBeginsWith : List Char → List Char → Bool
  | [], _ => true
  | _ :: _, [] => false
  | p :: ps, c :: cs => asciiLower c == p && ciBeginsWith ps cs

/-- After `['"]` was demanded: take the quoted id `([a-f0-9-]+)['"]\)?` and
return the captured id together with the rest of the text after the match. -/
def matchQuotedId (s : List Char) : Option (List Char × List Char) :=
  match s with
  | [] => none
  | q1 :: r =>
    if isQuoteChar q1 then
      let idChars := r.takeWhile isIdChar
      let r2 := r.drop idChars.length
      if idChars.isEmpty then none
      else
        match r2 with
        | [] => none
        | q2 :: r3 =>
          if isQuoteChar q2 then
            match r3 with
            | c :: r4 => if c == ')' then some (idChars, r4) else some (idChars, r3)
            | [] => some (idChars, r3)
          else none
    else none

/-- After the literal `dataset_id`: match `\s*(?:=|in)\s*\(?` and hand the
rest to `matchQuotedId`. -/
def matchAfterKey (s : List Char) : Option (List Char × List Char) :=
  let s1 := s.dropWhile isRegexSpace
  match s1 with
  | [] => none
  | c :: rest =>
    let afterOp : Option (List Char) :=
      if c == '=' then some rest
      else if asciiLower c == 'i' then
        match rest with
        | c2 :: rest2 => if asciiLower c2 == 'n' then some rest2 else none
        | [] => none
      else none
    match afterOp with
    | none => none
    | some s2 =>
      let s3 := s2.dropWhile isRegexSpace
      let s4 := match s3 with
        | c3 :: r3 => if c3 == '(' then r3 else s3
        | [] => s3
      matchQuotedId s4

/-- One pass of `query.matchAll(datasetIdPattern)`: scan left to right; at a
match, capture the id and resume after the matched text, as the regex's
`lastIndex` does. Fuel bounds recursion; the scanned list shrinks at every
call, so `s.length` fuel is enough. -/
def extractIdsAux : Nat → List Char → List (List Char)
  | 0, _ => []
  | _, [] => []
  | fuel + 1, s@(_ :: rest) =>
    if ciBeginsWith ("dataset_id".data) s then
      match matchAfterKey (s.drop 10) with
      | some (idChars, r) => idChars :: extractIdsAux fuel r
      | none => extractIdsAux fuel rest
    else extractIdsAux fuel rest

/-- The ids captured by the source's `datasetIdPattern` over the raw query:
`/dataset_id\s*(?:=|in)\s*\(?['"]([a-f0-9-]+)['"]\)?/gi`. -/
def extractDatasetIds (query : String) : List String :=
  (extractIdsAux query.data.length query.data).map String.mk

def selectOnlyError : String :=
  "Only SELECT queries are allowed. UPDATE, DELETE, DROP, INSERT, and other operations are forbidden."

def forbiddenKeywordError (kw : String) : String :=
  "Forbidden SQL keyword detected: " ++ upperStr kw ++ ". Only SELECT queries are allowed."

def tableReferenceError : String :=
  "Query must reference the " ++ dq ++ "dataset_rows" ++ dq ++ " table."

def missingFilterError (allowedDatasetIds : List String) : String :=
  "Query must filter by dataset_id in the WHERE clause. You can only query these datasets: " ++
    String.intercalate ", " allowedDatasetIds

def accessDeniedError (refId : String) (allowedDatasetIds : List String) : String :=
  "Access denied: Dataset ID " ++ dq ++ refId ++ dq ++
    " is not in the allowed list. Allowed IDs: " ++
    String.intercalate ", " allowedDatasetIds

structure ValidationResult where
  valid : Bool
  error : Option String
deriving DecidableEq, Repr

/-- The Dataset Query Guard `validateSQLQuery(query, allowedDatasetIds)`:
ordered checks, first failure wins, mirroring the source line by line. -/
def validateSQLQuery (query : String) (allowedDatasetIds : List String) :
    ValidationResult :=
  match startsWithSelectNorm query with
  | false => { valid := false, error := some selectOnlyError }
  | true =>
    match findDangerousKeyword query with
    | some kw => { valid := false, error := some (forbiddenKeywordError kw) }
    | none =>
      match referencesDatasetRows query with
      | false => { valid := false, error := some tableReferenceError }
      | true =>
        match extractDatasetIds query with
        | [] => { valid := false, error := some (missingFilterError allowedDatasetIds) }
        | refId :: restIds =>
          match (refId :: restIds).find? (fun x => !(allowedDatasetIds.contains x)) with
          | some badId =>
            { valid := false, error := some (accessDeniedError badId allowedDatasetIds) }
          | none => { valid := true, error := none }

/-- The safety cap of `createQueryDatasetTool`'s execute:
`sqlQuery.toLowerCase().includes("limit") ? sqlQuery : sqlQuery + " LIMIT 1000"`. -/
def cappedQuery (sqlQuery : String) : String :=
  if containsSub ("limit".data) (lowerChars sqlQuery.data) then sqlQuery
  else sqlQuery ++ " LIMIT 1000"

/-- What the `queryDataset` tool's execute does before any asynchronous
work: on an invalid verdict it returns the failure payload and never reaches
`db.execute`; on a valid verdict it proceeds to `db.execute` with the capped
statement. -/
inductive QueryToolAction where
  | failure (error : String)
  | executes (statement : String)
deriving DecidableEq, Repr

def queryDatasetExecute (allowedDatasetIds : List String) (sqlQuery : String) :
    QueryToolAction :=
  let validation := validateSQLQuery sqlQuery allowedDatasetIds
  match validation.valid with
  | false => QueryToolAction.failure (validation.error.getD "")
  | true => QueryToolAction.executes (cappedQuery sqlQuery)

/-! ## Orchestration engine (`streamAgent`, src/unnamed/part_008) -/

inductive Role where
  | system
  | user
  | assistant
  | tool
deriving DecidableEq, Repr

structure Message where
  role : Role
  content : String
deriving DecidableEq, Repr

/-- A plan step as the `stepSchema` declares it:
`{id, task, instructions, context, tools}`. -/
structure Step where
  id : String
  task : String
  instructions : String
  context : String
  tools : List String
deriving DecidableEq, Repr

/-- The keys of `availableTools` in `streamAgent`. -/
def availableToolNames : List String :=
  ["runCode", "queryDataset", "displayBarChart", "displayLineChart", "displayPieChart"]

/-- The three visualization tools named in the `toolChoice` condition. -/
def isVisualizationTool (t : String) : Bool :=
  t == "displayBarChart" || t == "displayLineChart" || t == "displayPieChart"

inductive ToolChoice where
  | required
  | auto
deriving DecidableEq, Repr

/-- The `toolChoice` argument of the per-step `generateText` call:
`required` exactly when the step's tool list is exactly one visualization
tool. -/
def initialToolChoice (stepTools : List String) : ToolChoice :=
  match stepTools with
  | [t] => if isVisualizationTool t then ToolChoice.required else ToolChoice.auto
  | _ => ToolChoice.auto

/-- One tool result of a prior internal round, as `prepareStep` reads it. -/
structure ToolResultRecord where
  toolName : String
  output : String
deriving DecidableEq, Repr

/-- The `prepareStep` condition: some prior round holds a successful
visualization tool result. -/
def hasSuccessfulVisualization (priorRounds : List (List ToolResultRecord)) : Bool :=
  priorRounds.any (fun round => round.any (fun r =>
    isVisualizationTool r.toolName && r.output == "Chart displayed successfully."))

/-- Effective tool choice of a round: `prepareStep` overrides to `auto` when
a successful visualization was produced; otherwise it returns nothing and
the call-level `toolChoice` stays in force. -/
def roundToolChoice (stepTools : List String)
    (priorRounds : List (List ToolResultRecord)) : ToolChoice :=
  if hasSuccessfulVisualization priorRounds then ToolChoice.auto
  else initialToolChoice stepTools

/-- One unit of the outbound event sequence the engine writes or merges. -/
inductive AgentEvent where
  | reasoningStart
  | reasoningDelta (text : String)
  | reasoningEnd
  | planUpdate (steps : List Step)
  | stepStatus (stepId : String) (completed : Bool)
  | chart (payload : String)
  | directResponse (toolNames : List String)
  | finalSynthesis
deriving DecidableEq, Repr

/-- The LLM as a black box: the planning decision, the streamed plan steps,
and for the `i`-th executed step its `generateText` result, namely
`result.response.messages` and the chart payloads the step's tool rounds
write. -/
structure AgentOracle where
  requiresPlanning : Bool
  planReasoning : String
  planSteps : List Step
  stepMessages : Nat → List Message
  stepCharts : Nat → List String

/-- Which response path the invocation takes. -/
inductive ResponsePath where
  | direct
  | emptyPlanFallback
  | plannedSynthesis
deriving DecidableEq, Repr

structure AgentRun where
  trace : List AgentEvent
  path : ResponsePath
  finalMessages : List Message
  executionMessages : List Message

/-- `result.response.messages.findLast(m => m.role === "assistant")`. -/
def lastAssistant (msgs : List Message) : Option Message :=
  msgs.reverse.find? (fun m => m.role == Role.assistant)

/-- The cumulative `data-planDataPart` writes: one with the empty list
before the stream is consumed, then one per streamed step carrying the full
array accumulated so far. -/
def planUpdates (steps : List Step) : List AgentEvent :=
  AgentEvent.planUpdate [] ::
    (List.range steps.length).map (fun i => AgentEvent.planUpdate (steps.take (i + 1)))

/-- Mutable state of the step-execution loop. -/
structure LoopState where
  trace : List AgentEvent
  executionMessages : List Message
  modelMessages : List Message

/-- The step-execution loop: for the `i`-th step write
`completed:false`, run the LLM rounds (chart events appear here), push all
response messages onto `executionMessages`, push the last assistant message
(when one exists) onto `modelMessages`, write `completed:true`, continue. -/
def execSteps (o : AgentOracle) : Nat → List Step → LoopState → LoopState
  | _, [], st => st
  | i, s :: rest, st =>
    let msgs := o.stepMessages i
    execSteps o (i + 1) rest
      { trace := st.trace ++ (AgentEvent.stepStatus s.id false ::
          ((o.stepCharts i).map AgentEvent.chart ++ [AgentEvent.stepStatus s.id true])),
        executionMessages := st.executionMessages ++ msgs,
        modelMessages := st.modelMessages ++
          (match lastAssistant msgs with
           | some m => [m]
           | none => []) }

/-- The orchestration engine `streamAgent`: reasoning span, planning
decision, then direct response / plan generation / empty-plan fallback /
step loop plus final synthesis, with the traces written in production
order. -/
def streamAgent (modelMessages : List Message) (o : AgentOracle) : AgentRun :=
  let reasoningTrace := [AgentEvent.reasoningStart,
    AgentEvent.reasoningDelta o.planReasoning, AgentEvent.reasoningEnd]
  match o.requiresPlanning with
  | false =>
    { trace := reasoningTrace ++ [AgentEvent.directResponse availableToolNames],
      path := ResponsePath.direct,
      finalMessages := modelMessages,
      executionMessages := [] }
  | true =>
    let planTrace := planUpdates o.planSteps
    match o.planSteps with
    | [] =>
      { trace := reasoningTrace ++ planTrace ++
          [AgentEvent.directResponse availableToolNames],
        path := ResponsePath.emptyPlanFallback,
        finalMessages := modelMessages,
        executionMessages := [] }
    | s :: rest =>
      let final := execSteps o 0 (s :: rest)
        { trace := reasoningTrace ++ planTrace,
          executionMessages := [],
          modelMessages := modelMessages }
      { trace := final.trace ++ [AgentEvent.finalSynthesis],
        path := ResponsePath.plannedSynthesis,
        finalMessages := final.modelMessages,
        executionMessages := final.executionMessages }

/-! ## Spec-side views of the run -/

/-- The `step-status` events of a trace, in order, as `(stepId, completed)`
pairs. -/
def statusEvents : List AgentEvent → List (String × Bool)
  | [] => []
  | AgentEvent.stepStatus stepId completed :: rest => (stepId, completed) :: statusEvents rest
  | _ :: rest => statusEvents rest

/-- Closed form of the loop's appends to the running conversation: per step,
the last assistant message of its response when there is one. -/
def lastAssistants (o : AgentOracle) : Nat → List Step → List Message
  | _, [] => []
  | i, _ :: rest =>
    (match lastAssistant (o.stepMessages i) with
     | some m => [m]
     | none => []) ++ lastAssistants o (i + 1) rest

/-- Closed form of the loop's `executionMessages`: every response message of
every step, in order. -/
def allStepMessages (o : AgentOracle) : Nat → List Step → List Message
  | _, [] => []
  | i, _ :: rest => o.stepMessages i ++ allStepMessages o (i + 1) rest

/-! ## Concrete queries and runs used by the claims -/

/-- `select * from dataset_rows where dataset_id in ('aa', 'bb')`. -/
def mixedInListQuery : String :=
  "select * from dataset_rows where dataset_id in (" ++ sq ++ "aa" ++ sq ++
    ", " ++ sq ++ "bb" ++ sq ++ ")"

/-- A query with the keyword `drop` as a whole word but no SELECT prefix. -/
def dropTableQuery : String := "drop table dataset_rows"

/-- A query with keyword `drop` after a valid SELECT prefix. -/
def trailingDropQuery : String :=
  "select * from dataset_rows where dataset_id = " ++ sq ++ "aa" ++ sq ++
    "; drop table users"

/-- A guard-approved query whose only occurrence of `limit` sits inside the
longer literal `limitless`, so it has no LIMIT clause. -/
def limitlessQuery : String :=
  "select data from dataset_rows where dataset_id = " ++ sq ++ "aa" ++ sq ++
    " and data->>" ++ sq ++ "cap" ++ sq ++ " = " ++ sq ++ "limitless" ++ sq

/-- A query whose `created_at` identifier contains `create` only as a
substring. -/
def identifierQuery : String :=
  "select data->>" ++ sq ++ "created_at" ++ sq ++
    " from dataset_rows where dataset_id = " ++ sq ++ "aa" ++ sq

/-- A valid query whose single filter names the unauthorized id `ff`. -/
def deniedIdQuery : String :=
  "select * from dataset_rows where dataset_id = " ++ sq ++ "ff" ++ sq

/-- A query that already specifies an explicit LIMIT clause. -/
def limitFiftyQuery : String :=
  "select * from dataset_rows where dataset_id = " ++ sq ++ "aa" ++ sq ++
    " limit 50"

/-- A syntactically fine SELECT with no dataset filter at all. -/
def noFilterQuery : String := "select 1"

def planOnlyStep : Step :=
  { id := "s1", task := "t", instructions := "i", context := "c", tools := [] }

def c3StepMsgs : List Message :=
  [{ role := Role.assistant, content := "draft" },
   { role := Role.tool, content := "tool output" },
   { role := Role.assistant, content := "final" }]

def c3Messages : List Message := [{ role := Role.user, content := "question" }]

def c3Oracle : AgentOracle :=
  { requiresPlanning := true, planReasoning := "r",
    planSteps := [planOnlyStep],
    stepMessages := fun _ => c3StepMsgs,
    stepCharts := fun _ => [] }

def emptyPlanOracle : AgentOracle :=
  { requiresPlanning := true, planReasoning := "r",
    planSteps := [],
    stepMessages := fun _ => [],
    stepCharts := fun _ => [] }

def twoStepOracle : AgentOracle :=
  { requiresPlanning := true, planReasoning := "r",
    planSteps := [planOnlyStep,
      { id := "s2", task := "t2", instructions := "i2", context := "c2",
        tools := ["displayBarChart"] }],
    stepMessages := fun _ => [],
    stepCharts := fun _ => ["chart-payload"] }

/-! ## Helper lemmas -/

theorem statusEvents_append (a b : List AgentEvent) :
    statusEvents (a ++ b) = statusEvents a ++ statusEvents b := by
  induction a with
  | nil => rfl
  | cons e rest ih => cases e <;> simp [statusEvents, ih]

theorem statusEvents_map_chart (l : List String) :
    statusEvents (l.map AgentEvent.chart) = [] := by
  induction l with
  | nil => rfl
  | cons x rest ih => simp [statusEvents, ih]

theorem statusEvents_map_planUpdate (l : List Nat) (f : Nat → List Step) :
    statusEvents (l.map (fun i => AgentEvent.planUpdate (f i))) = [] := by
  induction l with
  | nil => rfl
  | cons x rest ih => simp [statusEvents, ih]

theorem statusEvents_planUpdates (steps : List Step) :
    statusEvents (planUpdates steps) = [] := by
  simp [planUpdates, statusEvents, statusEvents_map_planUpdate]

theorem execSteps_trace (o : AgentOracle) :
    ∀ (steps : List Step) (i : Nat) (st : LoopState),
    statusEvents (execSteps o i steps st).trace =
      statusEvents st.trace ++ steps.flatMap (fun s => [(s.id, false), (s.id, true)]) := by
  intro steps
  induction steps with
  | nil => intro i st; simp [execSteps]
  | cons s rest ih =>
    intro i st
    simp [execSteps, ih, statusEvents_append, statusEvents, statusEvents_map_chart]

theorem execSteps_model (o : AgentOracle) :
    ∀ (steps : List Step) (i : Nat) (st : LoopState),
    (execSteps o i steps st).modelMessages =
      st.modelMessages ++ lastAssistants o i steps := by
  intro steps
  induction steps with
  | nil => intro i st; simp [execSteps, lastAssistants]
  | cons s rest ih =>
    intro i st
    simp [execSteps, ih, lastAssistants]

theorem execSteps_exec (o : AgentOracle) :
    ∀ (steps : List Step) (i : Nat) (st : LoopState),
    (execSteps o i steps st).executionMessages =
      st.executionMessages ++ allStepMessages o i steps := by
  intro steps
  induction steps with
  | nil => intro i st; simp [execSteps, allStepMessages]
  | cons s rest ih =>
    intro i st
    simp [execSteps, ih, allStepMessages]

theorem queryDatasetExecute_invalid {scope : List String} {q : String}
    (hv : (validateSQLQuery q scope).valid = false) :
    queryDatasetExecute scope q =
      QueryToolAction.failure ((validateSQLQuery q scope).error.getD "") := by
  simp [queryDatasetExecute, hv]

theorem hasWholeWord_containsSub (kw q : String)
    (h : hasWholeWord kw q = true) :
    containsSub (lowerChars kw.data) (lowerChars q.data) = true := by
  simp only [hasWholeWord, List.any_eq_true, Bool.and_eq_true] at h
  obtain ⟨i, hi, ⟨hb, _⟩, _⟩ := h
  simp only [containsSub, List.any_eq_true]
  exact ⟨i, hi, hb⟩

/-! ## The claims -/

/-- Claim C1 (corrected): the guard's verdict is a conjunction of the four
checks, where membership is demanded of every *extracted* id; extraction
captures, per scope-filter expression, only the first quoted id (so only
the first id of an IN-list). -/
theorem c1_guard_verdict_characterization (query : String) (scope : List String) :
    (validateSQLQuery query scope).valid = true ↔
      (startsWithSelectNorm query = true ∧ findDangerousKeyword query = none ∧
       referencesDatasetRows query = true ∧ extractDatasetIds query ≠ [] ∧
       ∀ refId ∈ extractDatasetIds query, scope.contains refId = true) := by
  unfold validateSQLQuery
  split
  · rename_i h1
    simp [h1]
  · rename_i h1
    split
    · rename_i kw h2
      simp [h2]
    · rename_i h2
      split
      · rename_i h3
        simp [h3]
      · rename_i h3
        split
        · rename_i h4
          simp [h4]
        · rename_i refId restIds h4
          split
          · rename_i badId h5
            have hmem := List.mem_of_find?_eq_some h5
            have hbad := List.find?_some h5
            simp only [Bool.not_eq_true'] at hbad
            refine iff_of_false (by simp) ?_
            rintro ⟨-, -, -, -, hall⟩
            rw [h4] at hall
            have hc := hall badId hmem
            rw [hbad] at hc
            exact Bool.false_ne_true hc
          · rename_i h5
            have hall := List.find?_eq_none.mp h5
            simp only [Bool.not_eq_true', Bool.not_eq_false] at hall
            refine iff_of_true rfl ⟨h1, h2, h3, by simp [h4], ?_⟩
            rw [h4]
            exact hall

/-- Claim C1 counterexample: with scope `[aa]`, the query
`select * from dataset_rows where dataset_id in ('aa', 'bb')` has only its
first IN-list id extracted, and the guard accepts it although `bb` is not
authorized — the claim says every IN-list id is extracted and the mixed list
is rejected. -/
theorem c1_mixed_in_list_accepted :
    extractDatasetIds mixedInListQuery = ["aa"] ∧
    validateSQLQuery mixedInListQuery ["aa"] = { valid := true, error := none } := by
  decide

/-- Claim C2: a query from which the guard extracts no scope-filter
expression is always rejected, and the tool's execute returns a failure
payload without reaching the database call. -/
theorem c2_no_filter_never_executes (query : String) (scope : List String)
    (h : extractDatasetIds query = []) :
    (validateSQLQuery query scope).valid = false ∧
    ∃ e, queryDatasetExecute scope query = QueryToolAction.failure e := by
  have hv : (validateSQLQuery query scope).valid = false := by
    unfold validateSQLQuery
    rw [h]
    cases h1 : startsWithSelectNorm query
    · simp
    · rcases h2 : findDangerousKeyword query with _ | kw
      · cases h3 : referencesDatasetRows query <;> simp
      · simp
  exact ⟨hv, ⟨(validateSQLQuery query scope).error.getD "",
    queryDatasetExecute_invalid hv⟩⟩

/-- Claim C2 witness: the filterless query `select 1` is rejected and never
executed, for the scope `[aa]`. -/
theorem c2_witness :
    (validateSQLQuery noFilterQuery ["aa"]).valid = false ∧
    ∃ e, queryDatasetExecute ["aa"] noFilterQuery = QueryToolAction.failure e :=
  c2_no_filter_never_executes noFilterQuery ["aa"] (by decide)

/-- Claim C3 (corrected): on the planned path the loop keeps all of a step's
response messages in the separate `executionMessages` context, but appends
only the last assistant message of each step (when one exists) to the running
conversation, so the final synthesis call receives the original messages plus
one message per step at most. -/
theorem c3_synthesis_conversation (modelMessages : List Message) (o : AgentOracle)
    (hp : o.requiresPlanning = true) (hs : o.planSteps ≠ []) :
    (streamAgent modelMessages o).finalMessages =
      modelMessages ++ lastAssistants o 0 o.planSteps ∧
    (streamAgent modelMessages o).executionMessages =
      allStepMessages o 0 o.planSteps := by
  obtain ⟨s, rest, hsr⟩ : ∃ s rest, o.planSteps = s :: rest := by
    cases hcase : o.planSteps with
    | nil => exact absurd hcase hs
    | cons a l => exact ⟨a, l, rfl⟩
  unfold streamAgent
  split
  · rename_i hfalse
    simp [hp] at hfalse
  · rw [hsr]
    constructor <;> simp [execSteps_model, execSteps_exec]

/-- Claim C3 counterexample: with one step whose LLM rounds return
[assistant draft, tool output, assistant final], the synthesis call receives
only the final assistant message — not all step-execution messages as the
claim states. -/
theorem c3_only_last_assistant_forwarded :
    (streamAgent c3Messages c3Oracle).executionMessages = c3StepMsgs ∧
    (streamAgent c3Messages c3Oracle).finalMessages ≠ c3Messages ++ c3StepMsgs ∧
    (streamAgent c3Messages c3Oracle).finalMessages =
      c3Messages ++ [{ role := Role.assistant, content := "final" }] := by
  refine ⟨by decide, by decide, by decide⟩

/-- Claim C3 witness: the amended statement applied to the one-step run. -/
theorem c3_witness :
    (streamAgent c3Messages c3Oracle).finalMessages =
      c3Messages ++ lastAssistants c3Oracle 0 c3Oracle.planSteps ∧
    (streamAgent c3Messages c3Oracle).executionMessages =
      allStepMessages c3Oracle 0 c3Oracle.planSteps :=
  c3_synthesis_conversation c3Messages c3Oracle rfl (by decide)

/-- Claim C4 (corrected): a query carrying a mutating keyword as a whole
word is always rejected, and the rejection reason is the forbidden-keyword
message exactly when the trimmed, lowercased query begins with `select`
(otherwise the earlier SELECT-only check fires first with its own message);
conversely the keyword detector fires on nothing but whole-word occurrences
— a query all of whose keyword occurrences sit inside longer words triggers
no keyword detection, witnessed concretely by the accepted `created_at`
query. -/
theorem c4_mutating_keyword_rejection :
    (∀ (query : String) (scope : List String) (kw : String),
      findDangerousKeyword query = some kw →
        (validateSQLQuery query scope).valid = false ∧
        (startsWithSelectNorm query = true →
          validateSQLQuery query scope =
            { valid := false, error := some (forbiddenKeywordError kw) })) ∧
    (∀ query : String,
      findDangerousKeyword query = none ↔
        ∀ kw ∈ dangerousKeywords, hasWholeWord kw query = false) ∧
    (findDangerousKeyword identifierQuery = none ∧
      (validateSQLQuery identifierQuery ["aa"]).valid = true) := by
  refine ⟨?_, ?_, by decide, by decide⟩
  · intro query scope kw hkw
    constructor
    · unfold validateSQLQuery
      split
      · rfl
      · rw [hkw]
    · intro h1
      unfold validateSQLQuery
      rw [h1, hkw]
  · intro query
    simp [findDangerousKeyword, List.find?_eq_none, Bool.not_eq_true]

/-- Claim C4 counterexample: `drop table dataset_rows` holds the keyword
`drop` as a whole word, yet the verdict's reason is the SELECT-only message,
which is none of the forbidden-keyword messages. -/
theorem c4_nonselect_gets_select_reason :
    hasWholeWord "drop" dropTableQuery = true ∧
    validateSQLQuery dropTableQuery ["aa"] =
      { valid := false, error := some selectOnlyError } ∧
    dangerousKeywords.all
      (fun kw => !(selectOnlyError == forbiddenKeywordError kw)) = true := by
  decide

/-- Claim C4 witness: a trailing `drop` statement after a valid SELECT
prefix is rejected with the forbidden-keyword reason. -/
theorem c4_witness :
    (validateSQLQuery trailingDropQuery ["aa"]).valid = false ∧
    validateSQLQuery trailingDropQuery ["aa"] =
      { valid := false, error := some (forbiddenKeywordError "drop") } :=
  ⟨(c4_mutating_keyword_rejection.1 trailingDropQuery ["aa"] "drop" (by decide)).1,
   (c4_mutating_keyword_rejection.1 trailingDropQuery ["aa"] "drop" (by decide)).2
     (by decide)⟩

/-- Claim C5 (corrected): for a guard-approved query the cap decision is a
case-insensitive *substring* test for `limit`: a query with a LIMIT clause
(whole word, hence substring) runs unmodified, and a query whose lowercased
text nowhere contains `limit` runs with ` LIMIT 1000` appended. -/
theorem c5_row_cap_behavior (q : String) (scope : List String)
    (hv : (validateSQLQuery q scope).valid = true) :
    (containsSub ("limit".data) (lowerChars q.data) = true →
      queryDatasetExecute scope q = QueryToolAction.executes q) ∧
    (containsSub ("limit".data) (lowerChars q.data) = false →
      queryDatasetExecute scope q = QueryToolAction.executes (q ++ " LIMIT 1000")) ∧
    (hasWholeWord "limit" q = true →
      queryDatasetExecute scope q = QueryToolAction.executes q) := by
  refine ⟨?_, ?_, ?_⟩
  · intro hc
    simp [queryDatasetExecute, hv, cappedQuery, hc]
  · intro hc
    simp [queryDatasetExecute, hv, cappedQuery, hc]
  · intro hl
    have hc := hasWholeWord_containsSub "limit" q hl
    have hlow : lowerChars ("limit".data) = "limit".data := by decide
    rw [hlow] at hc
    simp [queryDatasetExecute, hv, cappedQuery, hc]

/-- Claim C5 counterexample: a guard-approved query with no LIMIT clause —
`limit` appears only inside the literal `limitless` — is executed unmodified,
not with the row cap appended as the claim states. -/
theorem c5_substring_defeats_cap :
    (validateSQLQuery limitlessQuery ["aa"]).valid = true ∧
    hasWholeWord "limit" limitlessQuery = false ∧
    queryDatasetExecute ["aa"] limitlessQuery = QueryToolAction.executes limitlessQuery ∧
    limitlessQuery ≠ limitlessQuery ++ " LIMIT 1000" := by
  decide

/-- Claim C5 witness: all three branches exercised — an explicit LIMIT
clause runs unmodified, a `limit` occurrence that is only a substring of
`limitless` also runs unmodified, and a query with no `limit` substring
gets the appended cap. -/
theorem c5_witness :
    queryDatasetExecute ["aa"] limitFiftyQuery = QueryToolAction.executes limitFiftyQuery ∧
    queryDatasetExecute ["aa"] limitlessQuery = QueryToolAction.executes limitlessQuery ∧
    queryDatasetExecute ["ff"] deniedIdQuery =
      QueryToolAction.executes (deniedIdQuery ++ " LIMIT 1000") :=
  ⟨(c5_row_cap_behavior limitFiftyQuery ["aa"] (by decide)).1 (by decide),
   (c5_row_cap_behavior limitlessQuery ["aa"] (by decide)).1 (by decide),
   (c5_row_cap_behavior deniedIdQuery ["ff"] (by decide)).2.1 (by decide)⟩

/-- Claim C6: when the guard reaches the membership check and the single
extracted id is outside the scope, the rejection message names that id and
lists the whole authorized scope, comma-joined. -/
theorem c6_denied_message_names_id_and_scope (query : String) (scope : List String)
    (badId : String)
    (h1 : startsWithSelectNorm query = true)
    (h2 : findDangerousKeyword query = none)
    (h3 : referencesDatasetRows query = true)
    (h4 : extractDatasetIds query = [badId])
    (h5 : scope.contains badId = false) :
    validateSQLQuery query scope =
      { valid := false,
        error := some ("Access denied: Dataset ID " ++ dq ++ badId ++ dq ++
          " is not in the allowed list. Allowed IDs: " ++
          String.intercalate ", " scope) } := by
  unfold validateSQLQuery
  split
  · rename_i hc
    rw [h1] at hc
    exact Bool.noConfusion hc
  · split
    · rename_i kw hc
      rw [h2] at hc
      exact Option.noConfusion hc
    · split
      · rename_i hc
        rw [h3] at hc
        exact Bool.noConfusion hc
      · split
        · rename_i hc
          rw [h4] at hc
          exact List.noConfusion hc
        · rename_i refId restIds hc
          rw [h4] at hc
          injection hc with h6 h7
          subst h6
          subst h7
          split
          · rename_i bid hfind
            have hmem := List.mem_of_find?_eq_some hfind
            rw [List.mem_singleton] at hmem
            subst hmem
            simp [accessDeniedError]
          · rename_i hfind
            have hall := List.find?_eq_none.mp hfind badId (List.mem_cons_self _ _)
            exact absurd (by simp only [h5, Bool.not_false]) hall

/-- Claim C6 witness: scope `[aa, bb]` and a query filtering on `ff` yield
the access-denied message naming `ff` and listing `aa, bb`. -/
theorem c6_witness :
    validateSQLQuery deniedIdQuery ["aa", "bb"] =
      { valid := false,
        error := some ("Access denied: Dataset ID " ++ dq ++ "ff" ++ dq ++
          " is not in the allowed list. Allowed IDs: " ++
          String.intercalate ", " ["aa", "bb"]) } :=
  c6_denied_message_names_id_and_scope deniedIdQuery ["aa", "bb"] "ff"
    (by decide) (by decide) (by decide) (by decide) (by decide)

/-- Claim C7: when planning is required and the plan generator streams zero
steps, the engine takes exactly the empty-plan fallback: one direct response
with the full tool set, after the reasoning span and the single empty
plan-update — no step-status events and no synthesis call. -/
theorem c7_empty_plan_direct_response (modelMessages : List Message) (o : AgentOracle)
    (hp : o.requiresPlanning = true) (hs : o.planSteps = []) :
    (streamAgent modelMessages o).path = ResponsePath.emptyPlanFallback ∧
    (streamAgent modelMessages o).trace =
      [AgentEvent.reasoningStart, AgentEvent.reasoningDelta o.planReasoning,
       AgentEvent.reasoningEnd, AgentEvent.planUpdate [],
       AgentEvent.directResponse availableToolNames] := by
  unfold streamAgent
  split
  · rename_i hfalse
    simp [hp] at hfalse
  · rw [hs]
    constructor
    · simp
    · simp [planUpdates]

/-- Claim C7 witness: the fallback applied to a concrete empty-plan run. -/
theorem c7_witness :
    (streamAgent [] emptyPlanOracle).path = ResponsePath.emptyPlanFallback ∧
    (streamAgent [] emptyPlanOracle).trace =
      [AgentEvent.reasoningStart, AgentEvent.reasoningDelta emptyPlanOracle.planReasoning,
       AgentEvent.reasoningEnd, AgentEvent.planUpdate [],
       AgentEvent.directResponse availableToolNames] :=
  c7_empty_plan_direct_response [] emptyPlanOracle rfl rfl

/-- Claim C8: on the planned path the step-status events of the whole trace
are exactly, in order, `completed:false` then `completed:true` for each plan
step in plan order — so every started step completes and no `true` precedes
its `false`. -/
theorem c8_step_status_ordering (modelMessages : List Message) (o : AgentOracle)
    (hp : o.requiresPlanning = true) (hs : o.planSteps ≠ []) :
    statusEvents (streamAgent modelMessages o).trace =
      o.planSteps.flatMap (fun s => [(s.id, false), (s.id, true)]) := by
  obtain ⟨s, rest, hsr⟩ : ∃ s rest, o.planSteps = s :: rest := by
    cases hcase : o.planSteps with
    | nil => exact absurd hcase hs
    | cons a l => exact ⟨a, l, rfl⟩
  unfold streamAgent
  split
  · rename_i hfalse
    simp [hp] at hfalse
  · rw [hsr]
    simp [execSteps_trace, statusEvents_append, statusEvents, planUpdates,
      statusEvents_map_planUpdate]

/-- Claim C8 witness: a two-step plan (the second step emitting a chart)
produces the four status events in order. -/
theorem c8_witness :
    statusEvents (streamAgent [] twoStepOracle).trace =
      [("s1", false), ("s1", true), ("s2", false), ("s2", true)] := by
  have h := c8_step_status_ordering [] twoStepOracle rfl (by decide)
  exact h.trans (by decide)

/-- Claim C9 (corrected): the round's tool choice is `required` exactly when
the step's tool list is exactly one visualization tool and no prior round
holds a successful visualization result — it does not relax merely for being
a later round; and the first round always uses the call-level choice. -/
theorem c9_tool_choice_characterization (stepTools : List String)
    (priorRounds : List (List ToolResultRecord)) :
    (roundToolChoice stepTools priorRounds = ToolChoice.required ↔
      ((∃ t, stepTools = [t] ∧ isVisualizationTool t = true) ∧
        hasSuccessfulVisualization priorRounds = false)) ∧
    roundToolChoice stepTools [] = initialToolChoice stepTools := by
  constructor
  · cases hs : hasSuccessfulVisualization priorRounds
    · rcases stepTools with _ | ⟨t, _ | ⟨t2, rest⟩⟩
      · simp [roundToolChoice, initialToolChoice, hs]
      · cases hv : isVisualizationTool t <;>
          simp [roundToolChoice, initialToolChoice, hs, hv]
      · simp [roundToolChoice, initialToolChoice, hs]
    · simp [roundToolChoice, hs]
  · simp [roundToolChoice, hasSuccessfulVisualization]

/-- Claim C9 counterexample: a later round (one prior round exists) of a
single-visualization-tool step whose prior round failed still forces the
tool — the claim's unconditional relaxation on later rounds does not hold. -/
theorem c9_no_unconditional_relaxation :
    roundToolChoice ["displayBarChart"]
        [[{ toolName := "displayBarChart", output := "error: invalid input" }]] =
      ToolChoice.required ∧
    roundToolChoice ["displayBarChart"]
        [[{ toolName := "displayBarChart", output := "error: invalid input" }]] ≠
      ToolChoice.auto := by
  decide

/-- Claim C10: under an empty authorized scope every query is rejected —
either no filter is extracted or the first extracted id fails membership in
the empty scope — so the tool never reaches the database call. -/
theorem c10_empty_scope_rejects_all (query : String) :
    (validateSQLQuery query []).valid = false ∧
    ∃ e, queryDatasetExecute [] query = QueryToolAction.failure e := by
  have hv : (validateSQLQuery query []).valid = false := by
    unfold validateSQLQuery
    split
    · rfl
    · split
      · rfl
      · split
        · rfl
        · split
          · rfl
          · rename_i refId restIds h4
            split
            · rfl
            · rename_i h5
              exfalso
              have hall := List.find?_eq_none.mp h5 refId (List.mem_cons_self _ _)
              exact hall rfl
  exact ⟨hv, ⟨(validateSQLQuery query []).error.getD "",
    queryDatasetExecute_invalid hv⟩⟩

end Novablick
